import Mathlib

/-!
Verification of the CoNLL 2018 TIRA evaluation wrapper
(`evaluation_script/conll18_tira_eval.py`).

The script is shallowly embedded over exact rationals: Python floats become
`ℚ`, Python 3's builtin `round` (round-half-to-even) becomes `pythonRound`,
`str.format` fixed-point rendering becomes `formatFixed`, and the fallible
pieces (exceptions escaping the per-entry handling, i.e. `ZeroDivisionError`)
become `Option`.  The external collaborators `load_conllu_file` and
`evaluate` are modelled by the outcome a given run assigns to each metadata
entry (`EntryRun`): the orchestrator only consumes their results.
-/

/-- Python 3 `round` on an exact rational: round half to even. -/
def pythonRound (q : ℚ) : ℤ :=
  if q - ⌊q⌋ < 1/2 then ⌊q⌋
  else if q - ⌊q⌋ > 1/2 then ⌊q⌋ + 1
  else if ⌊q⌋ % 2 = 0 then ⌊q⌋ else ⌊q⌋ + 1

/-- Source line 23: `round(score * 100. / 5.) * 5. / 100.`. -/
def round_score (score : ℚ) : ℚ :=
  (pythonRound (score * 100 / 5) : ℚ) * 5 / 100

/-- Left-pad a string with zeros to the given width
(the zero padding of the fractional part of a `%.Nf` format). -/
def padZeros (w : ℕ) (s : String) : String :=
  String.mk (List.replicate (w - s.length) '0') ++ s

/-- Decimal rendering of an integer scaled by `10 ^ prec`:
`formatFixedInt 2 (-1234) = "-12.34"`. -/
def formatFixedInt (prec : ℕ) (n : ℤ) : String :=
  let scale : ℕ := 10 ^ prec
  let sign : String := if n < 0 then "-" else ""
  let a : ℕ := n.natAbs
  if prec = 0 then sign ++ toString a
  else sign ++ toString (a / scale) ++ "." ++ padZeros prec (toString (a % scale))

/-- Python `"{:.<prec>f}".format(q)`: round half to even at the last kept
decimal digit, then print with exactly `prec` fractional digits
(none, and no decimal point, when `prec = 0`). -/
def formatFixed (prec : ℕ) (q : ℚ) : String :=
  formatFixedInt prec (pythonRound (q * ((10 ^ prec : ℕ) : ℚ)))

/-- Python `s.startswith(t)` (source lines 71 and 74: `e.args[0].startswith(...)`). -/
def strStartsWith (s t : String) : Bool :=
  decide (s.data.take t.data.length = t.data)

/-- Python `s.endswith(t)` (source line 123: `key.endswith("-Status")`):
the reversal of `t` is an initial segment of the reversal of `s`. -/
def strEndsWith (s t : String) : Bool :=
  decide (s.data.reverse.take t.data.length = t.data.reverse)

/-- Python `s[:-n]` for `0 < n ≤ len(s)` (source line 126: `key[:-len("-Status")]`). -/
def strDropRight (s : String) (n : ℕ) : String :=
  String.mk (s.data.take (s.data.length - n))

/-! ### Evaluation lemmas for `pythonRound` -/

lemma pythonRound_of_lt {q : ℚ} {z : ℤ} (hz : ⌊q⌋ = z) (h : q - z < 1/2) :
    pythonRound q = z := by
  rw [pythonRound, hz, if_pos h]

lemma pythonRound_of_gt {q : ℚ} {z : ℤ} (hz : ⌊q⌋ = z) (h : 1/2 < q - z) :
    pythonRound q = z + 1 := by
  rw [pythonRound, hz, if_neg (by linarith), if_pos h]

lemma pythonRound_of_mid_even {q : ℚ} {z : ℤ} (hz : ⌊q⌋ = z) (h : q - z = 1/2)
    (he : z % 2 = 0) : pythonRound q = z := by
  rw [pythonRound, hz, if_neg (by rw [h]; exact lt_irrefl _),
    if_neg (by rw [h]; exact lt_irrefl _), if_pos he]

lemma pythonRound_of_mid_odd {q : ℚ} {z : ℤ} (hz : ⌊q⌋ = z) (h : q - z = 1/2)
    (he : z % 2 ≠ 0) : pythonRound q = z + 1 := by
  rw [pythonRound, hz, if_neg (by rw [h]; exact lt_irrefl _),
    if_neg (by rw [h]; exact lt_irrefl _), if_neg he]

lemma pythonRound_intCast (n : ℤ) : pythonRound (n : ℚ) = n :=
  pythonRound_of_lt (Int.floor_intCast n) (by norm_num)

lemma pythonRound_nonneg {q : ℚ} (h : 0 ≤ q) : 0 ≤ pythonRound q := by
  have hf : (0:ℤ) ≤ ⌊q⌋ := Int.floor_nonneg.mpr h
  unfold pythonRound
  split
  · exact hf
  · split
    · omega
    · split <;> omega

lemma pythonRound_le_of_le {q : ℚ} {n : ℤ} (h : q ≤ n) : pythonRound q ≤ n := by
  have hf : ⌊q⌋ ≤ n := by
    calc ⌊q⌋ ≤ ⌊(n:ℚ)⌋ := Int.floor_le_floor h
    _ = n := Int.floor_intCast n
  have hfl : (⌊q⌋ : ℚ) ≤ q := Int.floor_le q
  unfold pythonRound
  split
  · exact hf
  · rename_i h1
    split
    · rename_i h2
      by_contra hcon
      have hzn : ⌊q⌋ = n := by omega
      rw [hzn] at h2
      have : (n:ℚ) < q := by linarith
      linarith
    · rename_i h2
      have hmid : q - ⌊q⌋ = 1/2 := by linarith
      split
      · exact hf
      · by_contra hcon
        have hzn : ⌊q⌋ = n := by omega
        rw [hzn] at hmid
        have : (n:ℚ) < q := by linarith
        linarith

-- Sanity checks on concrete inputs.
example : pythonRound (37/2) = 18 :=
  pythonRound_of_mid_even (by norm_num [Int.floor_eq_iff]) (by norm_num) (by decide)
example : round_score (37/40) = 9/10 := by
  rw [round_score,
    pythonRound_of_mid_even (z := 18) (by norm_num [Int.floor_eq_iff]) (by norm_num) (by decide)]
  norm_num
example : strStartsWith "There is a cycle from 5" "There is a cycle" = true := by decide
example : strEndsWith "fr_sequoia-Status" "-Status" = true := by decide
example : strEndsWith "fr_sequoia-LAS-F1" "-Status" = false := by decide
example : strDropRight "fr_sequoia-Status" 7 = "fr_sequoia" := by decide
example : formatFixedInt 9 0 = "0.000000000" := by decide
example : formatFixedInt 9 (50 * 10^9) = "50.000000000" := by decide
example : formatFixedInt 0 85 = "85" := by decide

/-! ### Data model of the orchestration loop (source lines 37–131) -/

/-- One `metadata.json` entry (source line 58): `lcode`, `tcode`, `goldfile`,
`outfile`. -/
structure Entry where
  lcode : String
  tcode : String
  goldfile : String
  outfile : String
deriving Repr, DecidableEq

/-- Source line 58: `"_".join((entry['lcode'], entry['tcode']))`. -/
def ltcode (e : Entry) : String := e.lcode ++ "_" ++ e.tcode

/-- The view of a loaded CoNLL-U corpus the orchestrator consumes: its
`characters` attribute (concatenated non-space token text). -/
structure UDRepresentation where
  characters : String
deriving Repr, DecidableEq

/-- Outcome of an external `load_conllu_file` call: a loaded corpus, a
`UDError` with its message (`e.args[0]`), or any other exception. -/
inductive LoadOutcome where
  | ok (c : UDRepresentation)
  | udError (msg : String)
  | failure
deriving Repr

/-- Outcome of the external `evaluate(gold, system)` call: a mapping from
metric name to its F1 value (a fraction in `[0,1]`), or any exception. -/
inductive EvalOutcome where
  | ok (f1 : String → ℚ)
  | failure

/-- One sub-corpus entry of a run, together with the behaviour of the two
external loader calls and the external scorer on it. -/
structure EntryRun where
  entry : Entry
  goldLoad : LoadOutcome
  sysLoad : LoadOutcome
  evalRes : EvalOutcome

/-- Source line 50: the fixed, ordered list of the thirteen metrics. -/
def metrics : List String :=
  ["Tokens", "Sentences", "Words", "UPOS", "XPOS", "UFeats", "AllTags",
   "Lemmas", "UAS", "LAS", "CLAS", "MLAS", "BLEX"]

/-- Mutable state of the loop (source lines 51–54): `treebanks`, the
`summation` dict (`summation.get(metric, 0)` is modelled by a total function
defaulting to `0`), the `results` list, and the three headline-score dicts. -/
structure LoopState where
  treebanks : ℕ
  summation : String → ℚ
  results : List (String × String)
  results_las : String → Option ℚ
  results_mlas : String → Option ℚ
  results_blex : String → Option ℚ

/-- The state before the loop (source lines 51–54). -/
def initState : LoopState :=
  { treebanks := 0
    summation := fun _ => 0
    results := []
    results_las := fun _ => none
    results_mlas := fun _ => none
    results_blex := fun _ => none }

/-- Source line 64. -/
def goldFailMsg : String := "Error: Cannot load gold file"

/-- Source line 72. -/
def cycleMsg : String := "Error: There is a cycle in generated CoNLL-U file"

/-- Source line 75. -/
def rootsMsg : String :=
  "Error: There are multiple roots in a sentence in generated CoNLL-U file"

/-- Source line 77. -/
def formatErrMsg : String :=
  "Error: There is a format error (tabs, ID values, etc) in generated CoNLL-U file"

/-- Source line 80. -/
def cannotOpenMsg : String := "Error: Cannot open generated CoNLL-U file"

/-- Source line 85. -/
def emptyMsg : String := "Error: The system file is empty"

/-- Source line 96. -/
def internalErrMsg : String := "Error: Cannot evaluate generated CoNLL-U file, internal error"

/-- Source line 88: the character-mismatch message; the percentage is
`int(100 * len(system.characters) / len(gold.characters))`, i.e. the
integer-truncated ratio, here `ℕ` floor division (the caller guards
`lg ≠ 0`). -/
def mismatchMsg (ls lg : ℕ) : String :=
  "Error: The concatenation of tokens in gold file and in system file differ, system file has "
    ++ toString ls ++ " nonspace characters, which is approximately "
    ++ toString (100 * ls / lg) ++ "% of the gold file"

/-- Source lines 100–103: the success status message; each headline score is
`"{:.0f}".format(100 * round_score(f1))`. -/
def okMsg (f1 : String → ℚ) : String :=
  "OK: Result F1 scores rounded to 5% are LAS="
    ++ formatFixed 0 (100 * round_score (f1 "LAS")) ++ "% MLAS="
    ++ formatFixed 0 (100 * round_score (f1 "MLAS")) ++ "% BLEX="
    ++ formatFixed 0 (100 * round_score (f1 "BLEX")) ++ "%"

/-- Appending one Status record (`results.append((ltcode+"-Status", msg))`)
after `treebanks += 1`; every failure branch of the loop body does exactly
this and nothing else. -/
def statusState (st : LoopState) (e : Entry) (msg : String) : LoopState :=
  { st with
    treebanks := st.treebanks + 1
    results := st.results ++ [(ltcode e ++ "-Status", msg)] }

/-- Source lines 105–107: the `for metric in metrics` loop body updates the
`summation` dict at one key. -/
def updStep (f1 : String → ℚ) (acc : String → ℚ) (m : String) : String → ℚ :=
  fun k => if k = m then acc k + f1 k else acc k

/-- Source lines 105–107: net effect of the metric loop on `summation`. -/
def updateSummation (s f1 : String → ℚ) : String → ℚ :=
  metrics.foldl (updStep f1) s

/-- Source lines 100–110: the success branch — append the OK status record,
one `<code>-<metric>-F1` record per metric (value `"{:.9f}".format(100*f1)`),
add each raw F1 into `summation`, and store the three headline scores in the
per-code dicts. -/
def successState (st : LoopState) (e : Entry) (f1 : String → ℚ) : LoopState :=
  { st with
    treebanks := st.treebanks + 1
    summation := updateSummation st.summation f1
    results := st.results
      ++ (ltcode e ++ "-Status", okMsg f1)
        :: metrics.map (fun m => (ltcode e ++ "-" ++ m ++ "-F1", formatFixed 9 (100 * f1 m)))
    results_las := fun k => if k = ltcode e then some (f1 "LAS") else st.results_las k
    results_mlas := fun k => if k = ltcode e then some (f1 "MLAS") else st.results_mlas k
    results_blex := fun k => if k = ltcode e then some (f1 "BLEX") else st.results_blex k }

/-- The loop body (source lines 55–110) for one entry.  `none` models an
exception escaping the per-entry handling: the only such exception is the
`ZeroDivisionError` of line 88 when `len(gold.characters) = 0` while the
system characters are non-empty and different. -/
def processEntry (st : LoopState) (r : EntryRun) : Option LoopState :=
  match r.goldLoad with
  | .udError _ => some (statusState st r.entry goldFailMsg)
  | .failure => some (statusState st r.entry goldFailMsg)
  | .ok gold =>
    match r.sysLoad with
    | .udError msg =>
      if strStartsWith msg "There is a cycle" then some (statusState st r.entry cycleMsg)
      else if strStartsWith msg "There are multiple roots" then
        some (statusState st r.entry rootsMsg)
      else some (statusState st r.entry formatErrMsg)
    | .failure => some (statusState st r.entry cannotOpenMsg)
    | .ok system =>
      if system.characters = "" then some (statusState st r.entry emptyMsg)
      else if system.characters ≠ gold.characters then
        if gold.characters = "" then none
        else some (statusState st r.entry
          (mismatchMsg system.characters.length gold.characters.length))
      else
        match r.evalRes with
        | .failure => some (statusState st r.entry internalErrMsg)
        | .ok f1 => some (successState st r.entry f1)

/-- The `for entry in metadata` loop (source lines 55–110). -/
def runLoop : List EntryRun → LoopState → Option LoopState
  | [], st => some st
  | r :: rs, st =>
    match processEntry st r with
    | none => none
    | some st' => runLoop rs st'

/-- Source lines 112–114: `for metric in reversed(metrics): results.insert(0,
("total-"+metric+"-F1", "{:.9f}".format(100 * summation.get(metric, 0) /
treebanks)))`.  The division raises `ZeroDivisionError` when `treebanks = 0`
(modelled by `none`). -/
def insertAverages (st : LoopState) : Option (List (String × String)) :=
  if st.treebanks = 0 then none
  else some (metrics.reverse.foldl
    (fun acc m =>
      ("total-" ++ m ++ "-F1",
        formatFixed 9 (100 * st.summation m / (st.treebanks : ℚ))) :: acc)
    st.results)

/-- The semantic content of one stdout summary line (source lines 127–130):
the code stripped from the Status key, the three headline percentages
`100 * results_las.get(ltcode, 0.)` (likewise MLAS, BLEX), and the status
message — i.e. the arguments fed to the `"{:13} LAS={:10.6f}% ..."` format. -/
structure StdoutLine where
  code : String
  las : ℚ
  mlas : ℚ
  blex : ℚ
  status : String

/-- Source lines 122–131: keep the records whose key ends in `-Status`, strip
the suffix, and render the headline percentages with default `0`. -/
def stdoutLines (st : LoopState) (res : List (String × String)) : List StdoutLine :=
  res.filterMap fun kv =>
    if strEndsWith kv.1 "-Status" then
      some { code := strDropRight kv.1 7
             las := 100 * (st.results_las (strDropRight kv.1 7)).getD 0
             mlas := 100 * (st.results_mlas (strDropRight kv.1 7)).getD 0
             blex := 100 * (st.results_blex (strDropRight kv.1 7)).getD 0
             status := kv.2 }
    else none

/-- The whole of `main` after argument/metadata parsing (source lines 49–131):
run the loop, prepend the aggregate records, and derive the stdout summary
lines.  `none` is the fatal path: an uncaught exception reaches the
`__main__` handler (lines 134–140), which prints the contact-support message
to stderr and exits non-zero, writing no report. -/
def evalMain (runs : List EntryRun) : Option (List (String × String) × List StdoutLine) :=
  match runLoop runs initState with
  | none => none
  | some st =>
    match insertAverages st with
    | none => none
    | some res => some (res, stdoutLines st res)

/-! ### Derived views of one entry's processing -/

/-- The scorer output of an entry that reaches the success path (source
lines 100–110), `none` when any of categories 1–8 fires first. -/
def successF1 (r : EntryRun) : Option (String → ℚ) :=
  match r.goldLoad with
  | .udError _ => none
  | .failure => none
  | .ok gold =>
    match r.sysLoad with
    | .udError _ => none
    | .failure => none
    | .ok system =>
      if system.characters = "" then none
      else if system.characters ≠ gold.characters then none
      else
        match r.evalRes with
        | .failure => none
        | .ok f1 => some f1

/-- The status message the loop body records for an entry. -/
def statusMsg (r : EntryRun) : String :=
  match r.goldLoad with
  | .udError _ => goldFailMsg
  | .failure => goldFailMsg
  | .ok gold =>
    match r.sysLoad with
    | .udError msg =>
      if strStartsWith msg "There is a cycle" then cycleMsg
      else if strStartsWith msg "There are multiple roots" then rootsMsg
      else formatErrMsg
    | .failure => cannotOpenMsg
    | .ok system =>
      if system.characters = "" then emptyMsg
      else if system.characters ≠ gold.characters then
        mismatchMsg system.characters.length gold.characters.length
      else
        match r.evalRes with
        | .failure => internalErrMsg
        | .ok f1 => okMsg f1

/-- All records the loop body appends for one entry: exactly one Status
record, followed (on the success path only) by the thirteen per-metric F1
records. -/
def entryRecords (r : EntryRun) : List (String × String) :=
  (ltcode r.entry ++ "-Status", statusMsg r) ::
    (match successF1 r with
     | some f1 =>
       metrics.map fun m => (ltcode r.entry ++ "-" ++ m ++ "-F1", formatFixed 9 (100 * f1 m))
     | none => [])

/-- The contribution of one entry to the per-metric running sums. -/
def successAdd (r : EntryRun) (m : String) : ℚ :=
  match successF1 r with
  | some f => f m
  | none => 0

/-- Sum of the F1 values of the entries that reached the success path. -/
def sumSuccess (runs : List EntryRun) (m : String) : ℚ :=
  (runs.map fun r => successAdd r m).sum

/-! ### The summation dict update -/

lemma foldl_updStep_not_mem (l : List String) (s f1 : String → ℚ) (m : String)
    (hm : m ∉ l) : (l.foldl (updStep f1) s) m = s m := by
  induction l generalizing s with
  | nil => rfl
  | cons a t ih =>
    have hma : m ≠ a := by
      intro hEq; exact hm (hEq ▸ List.mem_cons_self a t)
    have hmt : m ∉ t := fun hmem => hm (List.mem_cons_of_mem a hmem)
    rw [List.foldl_cons, ih _ hmt]
    simp [updStep, hma]

lemma foldl_updStep_mem (l : List String) (s f1 : String → ℚ) (m : String)
    (hl : l.Nodup) (hm : m ∈ l) : (l.foldl (updStep f1) s) m = s m + f1 m := by
  induction l generalizing s with
  | nil => cases hm
  | cons a t ih =>
    rw [List.foldl_cons]
    rcases List.mem_cons.mp hm with h | h
    · subst h
      rw [foldl_updStep_not_mem t _ _ m (List.nodup_cons.mp hl).1]
      simp [updStep]
    · have hma : m ≠ a := by
        intro hEq; exact (List.nodup_cons.mp hl).1 (hEq ▸ h)
      rw [ih _ (List.nodup_cons.mp hl).2 h]
      simp [updStep, hma]

lemma metrics_nodup : metrics.Nodup := by decide

lemma updateSummation_mem (s f1 : String → ℚ) {m : String} (hm : m ∈ metrics) :
    updateSummation s f1 m = s m + f1 m :=
  foldl_updStep_mem metrics s f1 m metrics_nodup hm

/-! ### Characterisation of the loop body and the loop -/

lemma processEntry_char (st : LoopState) (r : EntryRun) (st' : LoopState)
    (h : processEntry st r = some st') :
    st'.treebanks = st.treebanks + 1 ∧
    st'.results = st.results ++ entryRecords r ∧
    st'.summation = (match successF1 r with
      | some f1 => updateSummation st.summation f1
      | none => st.summation) := by
  rcases r with ⟨e, gl, sl, ev⟩
  cases gl with
  | udError m =>
    simp only [processEntry, Option.some.injEq] at h
    subst h
    simp [statusState, entryRecords, statusMsg, successF1]
  | failure =>
    simp only [processEntry, Option.some.injEq] at h
    subst h
    simp [statusState, entryRecords, statusMsg, successF1]
  | ok gold =>
    cases sl with
    | udError msg =>
      simp only [processEntry] at h
      split at h <;> [skip; split at h] <;>
        (simp only [Option.some.injEq] at h; subst h;
         simp_all [statusState, entryRecords, statusMsg, successF1])
    | failure =>
      simp only [processEntry, Option.some.injEq] at h
      subst h
      simp [statusState, entryRecords, statusMsg, successF1]
    | ok system =>
      simp only [processEntry] at h
      split at h
      · simp only [Option.some.injEq] at h; subst h
        simp_all [statusState, entryRecords, statusMsg, successF1]
      · split at h
        · split at h
          · exact absurd h (by simp)
          · simp only [Option.some.injEq] at h; subst h
            simp_all [statusState, entryRecords, statusMsg, successF1]
        · cases ev with
          | failure =>
            simp only [Option.some.injEq] at h; subst h
            simp_all [statusState, entryRecords, statusMsg, successF1]
          | ok f1 =>
            simp only [Option.some.injEq] at h; subst h
            simp_all [successState, entryRecords, statusMsg, successF1]

lemma runLoop_char (runs : List EntryRun) :
    ∀ st st', runLoop runs st = some st' →
      st'.treebanks = st.treebanks + runs.length ∧
      st'.results = st.results ++ runs.flatMap entryRecords ∧
      ∀ m ∈ metrics, st'.summation m = st.summation m + sumSuccess runs m := by
  induction runs with
  | nil =>
    intro st st' h
    simp only [runLoop, Option.some.injEq] at h
    subst h
    simp [sumSuccess]
  | cons r rs ih =>
    intro st st' h
    simp only [runLoop] at h
    cases hpe : processEntry st r with
    | none => rw [hpe] at h; cases h
    | some st1 =>
      rw [hpe] at h
      obtain ⟨ht, hr, hs⟩ := processEntry_char st r st1 hpe
      obtain ⟨ht', hr', hs'⟩ := ih st1 st' h
      refine ⟨by rw [ht', ht, List.length_cons]; omega, ?_, ?_⟩
      · rw [hr', hr, List.flatMap_cons, List.append_assoc]
      · intro m hm
        rw [hs' m hm, hs]
        have : sumSuccess (r :: rs) m = successAdd r m + sumSuccess rs m := by
          simp [sumSuccess]
        rw [this, successAdd]
        cases hsf : successF1 r with
        | none => simp
        | some f1 =>
          simp only [updateSummation_mem st.summation f1 hm]
          ring

/-! ### The aggregate insertion -/

lemma foldl_rev_cons {α β : Type} (l : List α) (g : α → β) (init : List β) :
    l.reverse.foldl (fun acc a => g a :: acc) init = l.map g ++ init := by
  induction l with
  | nil => rfl
  | cons a t ih =>
    rw [List.reverse_cons, List.foldl_append, ih]
    rfl

lemma insertAverages_eq (st : LoopState) (h : st.treebanks ≠ 0) :
    insertAverages st = some ((metrics.map fun m =>
      ("total-" ++ m ++ "-F1",
        formatFixed 9 (100 * st.summation m / (st.treebanks : ℚ)))) ++ st.results) := by
  rw [insertAverages, if_neg h, foldl_rev_cons]

/-! ### Suffix facts about the record keys -/

lemma strEndsWith_append_self (s t : String) : strEndsWith (s ++ t) t = true := by
  simp only [strEndsWith, String.data_append, List.reverse_append, decide_eq_true_eq]
  rw [← List.length_reverse t.data, List.take_left]

lemma strEndsWith_F1 (s : String) : strEndsWith (s ++ "-F1") "-Status" = false := by
  have h1 : ("-F1" : String).data = ['-', 'F', '1'] := rfl
  have h2 : ("-Status" : String).data = ['-', 'S', 't', 'a', 't', 'u', 's'] := rfl
  simp only [strEndsWith, String.data_append, List.reverse_append, h1, h2,
    decide_eq_false_iff_not]
  intro hcon
  simp [List.take_succ_cons] at hcon

lemma strDropRight_append_status (s : String) : strDropRight (s ++ "-Status") 7 = s := by
  have h2 : ("-Status" : String).data = ['-', 'S', 't', 'a', 't', 'u', 's'] := rfl
  obtain ⟨d⟩ := s
  simp only [strDropRight, String.data_append, h2]
  congr 1
  have hl : (['-', 'S', 't', 'a', 't', 'u', 's'] : List Char).length = 7 := rfl
  rw [List.length_append, hl, Nat.add_sub_cancel]
  exact List.take_left' rfl

/-! ### Status records inside the result list -/

lemma filter_status_entryRecords (r : EntryRun) :
    (entryRecords r).filter (fun kv => strEndsWith kv.1 "-Status")
      = [(ltcode r.entry ++ "-Status", statusMsg r)] := by
  have htail : (match successF1 r with
      | some f1 => metrics.map fun m =>
          (ltcode r.entry ++ "-" ++ m ++ "-F1", formatFixed 9 (100 * f1 m))
      | none => ([] : List (String × String))).filter
        (fun kv : String × String => strEndsWith kv.1 "-Status") = [] := by
    cases successF1 r with
    | none => rfl
    | some f1 =>
      apply List.filter_eq_nil_iff.mpr
      intro kv hkv
      obtain ⟨m, _, hEq⟩ := List.mem_map.mp hkv
      subst hEq
      simp [strEndsWith_F1]
  rw [entryRecords, List.filter_cons, htail]
  simp [strEndsWith_append_self]

lemma filter_status_flatMap (runs : List EntryRun) :
    (runs.flatMap entryRecords).filter (fun kv => strEndsWith kv.1 "-Status")
      = runs.map (fun r => (ltcode r.entry ++ "-Status", statusMsg r)) := by
  induction runs with
  | nil => rfl
  | cons r rs ih =>
    rw [List.flatMap_cons, List.filter_append, filter_status_entryRecords, ih]
    rfl

lemma filter_status_totals (v : String → String) :
    ((metrics.map fun m => ("total-" ++ m ++ "-F1", v m)).filter
      (fun kv => strEndsWith kv.1 "-Status")) = [] := by
  rw [List.filter_eq_nil_iff.mpr]
  intro kv hkv
  obtain ⟨m, _, hEq⟩ := List.mem_map.mp hkv
  subst hEq
  simp [strEndsWith_F1]

/-! ### The stdout summary lines of record sublists -/

lemma stdoutLines_append (st : LoopState) (l1 l2 : List (String × String)) :
    stdoutLines st (l1 ++ l2) = stdoutLines st l1 ++ stdoutLines st l2 :=
  List.filterMap_append l1 l2 _

lemma stdoutLines_totals (st : LoopState) (v : String → String) :
    stdoutLines st (metrics.map fun m => ("total-" ++ m ++ "-F1", v m)) = [] := by
  rw [stdoutLines, List.filterMap_eq_nil_iff.mpr]
  intro kv hkv
  obtain ⟨m, _, hEq⟩ := List.mem_map.mp hkv
  subst hEq
  simp [strEndsWith_F1]

lemma stdoutLines_metricRecords (st : LoopState) (lt : String) (v : String → String) :
    stdoutLines st (metrics.map fun m => (lt ++ "-" ++ m ++ "-F1", v m)) = [] := by
  rw [stdoutLines, List.filterMap_eq_nil_iff.mpr]
  intro kv hkv
  obtain ⟨m, _, hEq⟩ := List.mem_map.mp hkv
  subst hEq
  simp [strEndsWith_F1]

lemma stdoutLines_status (st : LoopState) (lt msg : String) :
    stdoutLines st [(lt ++ "-Status", msg)]
      = [{ code := lt
           las := 100 * (st.results_las lt).getD 0
           mlas := 100 * (st.results_mlas lt).getD 0
           blex := 100 * (st.results_blex lt).getD 0
           status := msg }] := by
  simp [stdoutLines, strEndsWith_append_self, strDropRight_append_status]

/-! ### Concrete `formatFixed` values -/

lemma formatFixed_zero : formatFixed 9 0 = "0.000000000" := by
  rw [formatFixed, show ((0:ℚ) * ((10 ^ 9 : ℕ) : ℚ)) = ((0:ℤ) : ℚ) by norm_num,
    pythonRound_intCast]
  decide

/-! ### Claims about `round_score` (C2, C8) -/

/-- Claim C2, counterexample: `0.925` is the exact midpoint between `0.90`
and `0.95`, so by the claim ("ties round toward the larger magnitude; for
every x at or above a midpoint the result rounds up") `round_score 0.925`
ought to be `0.95`; the code uses Python 3 `round` (half to even:
`round(18.5) = 18`) and yields `0.90`. -/
theorem claim_C2_counterexample :
    round_score (925/1000) = 90/100 ∧ round_score (925/1000) ≠ 95/100 := by
  have h : round_score (925/1000) = 90/100 := by
    rw [round_score, pythonRound_of_mid_even (z := 18)
      (by norm_num [Int.floor_eq_iff]) (by norm_num) (by decide)]
    norm_num
  exact ⟨h, by rw [h]; norm_num⟩

/-- Claim C2, amended: for every x in [0,1], `round_score x` is a multiple
of 0.05 in [0,1] obtained by multiplying x by 20, rounding to the nearest
integer with ties resolved half-to-even (Python 3 `round`), and dividing by
20.  The six listed non-midpoint boundary values hold as stated; at the
midpoints the tie goes to the even multiple: 0.875 rounds up to 0.90 and
0.975 rounds up to 1.00, but 0.925 rounds down to 0.90. -/
theorem claim_C2_amended (x : ℚ) (h0 : 0 ≤ x) (h1 : x ≤ 1) :
    round_score x = (pythonRound (x * 20) : ℚ) / 20 ∧
    (∃ k : ℤ, 0 ≤ k ∧ k ≤ 20 ∧ round_score x = (k : ℚ) / 20) ∧
    round_score (874999/1000000) = 85/100 ∧
    round_score (875001/1000000) = 90/100 ∧
    round_score (924999/1000000) = 90/100 ∧
    round_score (925001/1000000) = 95/100 ∧
    round_score (974999/1000000) = 95/100 ∧
    round_score (975001/1000000) = 1 ∧
    round_score (875/1000) = 90/100 ∧
    round_score (925/1000) = 90/100 ∧
    round_score (975/1000) = 1 := by
  have harg : x * 100 / 5 = x * 20 := by ring
  refine ⟨?_, ?_, ?_, ?_, ?_, ?_, ?_, ?_, ?_, ?_, ?_⟩
  · rw [round_score, harg]; ring
  · refine ⟨pythonRound (x * 20), ?_, ?_, ?_⟩
    · exact pythonRound_nonneg (by nlinarith)
    · exact pythonRound_le_of_le (by push_cast; nlinarith)
    · rw [round_score, harg]; ring
  · rw [round_score, pythonRound_of_lt (z := 17)
      (by norm_num [Int.floor_eq_iff]) (by norm_num)]
    norm_num
  · rw [round_score, pythonRound_of_gt (z := 17)
      (by norm_num [Int.floor_eq_iff]) (by norm_num)]
    norm_num
  · rw [round_score, pythonRound_of_lt (z := 18)
      (by norm_num [Int.floor_eq_iff]) (by norm_num)]
    norm_num
  · rw [round_score, pythonRound_of_gt (z := 18)
      (by norm_num [Int.floor_eq_iff]) (by norm_num)]
    norm_num
  · rw [round_score, pythonRound_of_lt (z := 19)
      (by norm_num [Int.floor_eq_iff]) (by norm_num)]
    norm_num
  · rw [round_score, pythonRound_of_gt (z := 19)
      (by norm_num [Int.floor_eq_iff]) (by norm_num)]
    norm_num
  · rw [round_score, pythonRound_of_mid_odd (z := 17)
      (by norm_num [Int.floor_eq_iff]) (by norm_num) (by decide)]
    norm_num
  · rw [round_score, pythonRound_of_mid_even (z := 18)
      (by norm_num [Int.floor_eq_iff]) (by norm_num) (by decide)]
    norm_num
  · rw [round_score, pythonRound_of_mid_odd (z := 19)
      (by norm_num [Int.floor_eq_iff]) (by norm_num) (by decide)]
    norm_num

/-- Witness for `claim_C2_amended` at `x = 1/2`. -/
theorem claim_C2_amended_witness :
    0 ≤ (1/2 : ℚ) ∧ (1/2 : ℚ) ≤ 1 ∧
    (round_score (1/2) = (pythonRound ((1/2 : ℚ) * 20) : ℚ) / 20 ∧
     (∃ k : ℤ, 0 ≤ k ∧ k ≤ 20 ∧ round_score (1/2) = (k : ℚ) / 20) ∧
     round_score (874999/1000000) = 85/100 ∧
     round_score (875001/1000000) = 90/100 ∧
     round_score (924999/1000000) = 90/100 ∧
     round_score (925001/1000000) = 95/100 ∧
     round_score (974999/1000000) = 95/100 ∧
     round_score (975001/1000000) = 1 ∧
     round_score (875/1000) = 90/100 ∧
     round_score (925/1000) = 90/100 ∧
     round_score (975/1000) = 1) :=
  ⟨by norm_num, by norm_num, claim_C2_amended (1/2) (by norm_num) (by norm_num)⟩

/-- Claim C8: `round_score` is idempotent on `[0,1]`:
`round_score (round_score x) = round_score x`. -/
theorem claim_C8 (x : ℚ) (h0 : 0 ≤ x) (h1 : x ≤ 1) :
    round_score (round_score x) = round_score x := by
  have harg : ((pythonRound (x * 100 / 5) : ℚ) * 5 / 100) * 100 / 5
      = ((pythonRound (x * 100 / 5) : ℤ) : ℚ) := by ring
  simp only [round_score]
  rw [harg, pythonRound_intCast]

/-- Witness for `claim_C8` at `x = 3/10`. -/
theorem claim_C8_witness :
    0 ≤ (3/10 : ℚ) ∧ (3/10 : ℚ) ≤ 1 ∧
    round_score (round_score (3/10)) = round_score (3/10) :=
  ⟨by norm_num, by norm_num, claim_C8 (3/10) (by norm_num) (by norm_num)⟩

/-! ### Concrete runs used as inputs -/

/-- A concrete metadata entry. -/
def entry0 : Entry :=
  { lcode := "fr", tcode := "gsd", goldfile := "fr_gsd.conllu", outfile := "fr_gsd.conllu" }

/-- The entry behaviour that triggers the line-88 division by zero: the gold
file loads with an empty character stream while the system file's stream is
non-empty and different. -/
def crashRun : EntryRun :=
  { entry := entry0
    goldLoad := .ok { characters := "" }
    sysLoad := .ok { characters := "x" }
    evalRes := .failure }

/-- An entry whose gold file fails to load. -/
def failRun : EntryRun :=
  { entry := entry0, goldLoad := .failure, sysLoad := .failure, evalRes := .failure }

/-! ### Claim C3 (code bug) and Claim C9 -/

/-- Claim C3 fails on the code: when the loaded gold data's character stream
is empty and the candidate's is non-empty (hence different), line 88
computes `int(100 * len(system.characters) / len(gold.characters))` with a
zero divisor; the `ZeroDivisionError` escapes the per-entry handling, the
loop aborts (no Status record for the entry), and the whole run takes the
fatal path, contradicting "no exception or failure propagates past that
entry's processing".  This theorem evaluates the code at that input. -/
theorem claim_C3_bug :
    processEntry initState crashRun = none ∧
    runLoop [crashRun] initState = none ∧
    evalMain [crashRun] = none :=
  ⟨rfl, rfl, rfl⟩

/-- Claim C9: for an empty metadata collection the loop leaves
`treebanks = 0`, so the aggregation step divides by zero
(`ZeroDivisionError`), no aggregate records and no report are produced, and
the run takes the fatal path. -/
theorem claim_C9 :
    runLoop [] initState = some initState ∧
    initState.treebanks = 0 ∧
    insertAverages initState = none ∧
    evalMain [] = none :=
  ⟨rfl, rfl, rfl, rfl⟩

/-! ### Branch lemma shared by the success-path claims -/

lemma pe_success (st : LoopState) (e : Entry) (gold system : UDRepresentation)
    (f1 : String → ℚ) (hne : system.characters ≠ "")
    (heq : system.characters = gold.characters) :
    processEntry st ⟨e, .ok gold, .ok system, .ok f1⟩ = some (successState st e f1) := by
  simp only [processEntry]
  rw [if_neg hne, if_neg (not_not_intro heq)]

/-! ### Claim C5: classification of candidate-file load failures -/

/-- Claim C5: when the gold file loads and the candidate file fails to load,
the classification follows the fixed priority order — a `UDError` message
starting with the cycle marker gives the cycle status; otherwise one
starting with the multiple-roots marker gives the multiple-roots status; any
other `UDError` gives the generic format-error status; any non-`UDError`
failure gives "Cannot open generated CoNLL-U file" — and in every case the
entry's processing appends exactly one Status record (`statusState`: no
per-metric records, `summation` untouched) and yields `some _`, so the loop
proceeds to the next entry. -/
theorem claim_C5 (st : LoopState) (e : Entry) (gold : UDRepresentation)
    (ev : EvalOutcome) :
    (∀ msg, strStartsWith msg "There is a cycle" = true →
      processEntry st ⟨e, .ok gold, .udError msg, ev⟩ = some (statusState st e cycleMsg)) ∧
    (∀ msg, strStartsWith msg "There is a cycle" = false →
      strStartsWith msg "There are multiple roots" = true →
      processEntry st ⟨e, .ok gold, .udError msg, ev⟩ = some (statusState st e rootsMsg)) ∧
    (∀ msg, strStartsWith msg "There is a cycle" = false →
      strStartsWith msg "There are multiple roots" = false →
      processEntry st ⟨e, .ok gold, .udError msg, ev⟩ = some (statusState st e formatErrMsg)) ∧
    processEntry st ⟨e, .ok gold, .failure, ev⟩ = some (statusState st e cannotOpenMsg) ∧
    (∀ msg, (statusState st e msg).results = st.results ++ [(ltcode e ++ "-Status", msg)] ∧
      (statusState st e msg).summation = st.summation ∧
      (statusState st e msg).treebanks = st.treebanks + 1) := by
  refine ⟨?_, ?_, ?_, rfl, fun msg => ⟨rfl, rfl, rfl⟩⟩
  · intro msg h
    simp only [processEntry, h, if_true]
  · intro msg h1 h2
    simp only [processEntry, h1, h2, Bool.false_eq_true, if_false, if_true]
  · intro msg h1 h2
    simp only [processEntry, h1, h2, Bool.false_eq_true, if_false]

/-- Witness for `claim_C5`: a concrete cycle-marked `UDError`. -/
theorem claim_C5_witness :
    processEntry initState
        ⟨entry0, .ok { characters := "abc" }, .udError "There is a cycle in sentence 3", .failure⟩
      = some (statusState initState entry0 cycleMsg) :=
  (claim_C5 initState entry0 { characters := "abc" } .failure).1
    "There is a cycle in sentence 3" (by decide)

/-! ### Claim C6: the character-mismatch status message -/

/-- Claim C6: when both files load, the candidate's character stream is
non-empty and differs from the (non-empty) reference's, the entry gets
exactly one Status record whose message reports the candidate's non-space
character count `L` and the integer-truncated percentage `100 * L / G`
(`ℕ` floor division) of the reference's count `G`.  (When the reference
stream is empty the percentage does not exist and the code instead aborts —
see `claim_C3_bug`.) -/
theorem claim_C6 (st : LoopState) (e : Entry) (gold system : UDRepresentation)
    (ev : EvalOutcome) (hne : system.characters ≠ "")
    (hdiff : system.characters ≠ gold.characters) (hg : gold.characters ≠ "") :
    processEntry st ⟨e, .ok gold, .ok system, ev⟩
      = some (statusState st e
          (mismatchMsg system.characters.length gold.characters.length)) ∧
    mismatchMsg system.characters.length gold.characters.length
      = "Error: The concatenation of tokens in gold file and in system file differ, system file has "
        ++ toString system.characters.length
        ++ " nonspace characters, which is approximately "
        ++ toString (100 * system.characters.length / gold.characters.length)
        ++ "% of the gold file" := by
  refine ⟨?_, rfl⟩
  simp only [processEntry]
  rw [if_neg hne, if_pos hdiff, if_neg hg]

/-- Witness for `claim_C6`: candidate stream `"ab"`, a strict non-empty
prefix of the reference stream `"abc"` (`L = 2`, `G = 3`). -/
theorem claim_C6_witness :
    processEntry initState
        ⟨entry0, .ok { characters := "abc" }, .ok { characters := "ab" }, .failure⟩
      = some (statusState initState entry0
          (mismatchMsg ("ab" : String).length ("abc" : String).length)) ∧
    mismatchMsg ("ab" : String).length ("abc" : String).length
      = "Error: The concatenation of tokens in gold file and in system file differ, system file has "
        ++ toString ("ab" : String).length
        ++ " nonspace characters, which is approximately "
        ++ toString (100 * ("ab" : String).length / ("abc" : String).length)
        ++ "% of the gold file" :=
  claim_C6 initState entry0 { characters := "abc" } { characters := "ab" } .failure
    (by decide) (by decide) (by decide)

/-! ### Claim C7: the success path -/

/-- Claim C7: an entry that reaches the success path appends the OK status
record followed by exactly one `<code>-<metric>-F1` record per metric, in
the fixed thirteen-item metric order, each valued
`"{:.9f}".format(100 * f1)` (`formatFixed 9 (100 * f1 m)`), and adds the
raw (unrounded) F1 of each metric to that metric's running sum. -/
theorem claim_C7 (st : LoopState) (e : Entry) (gold system : UDRepresentation)
    (f1 : String → ℚ) (hne : system.characters ≠ "")
    (heq : system.characters = gold.characters) :
    processEntry st ⟨e, .ok gold, .ok system, .ok f1⟩ = some (successState st e f1) ∧
    (successState st e f1).results
      = st.results ++ (ltcode e ++ "-Status", okMsg f1)
          :: metrics.map (fun m => (ltcode e ++ "-" ++ m ++ "-F1", formatFixed 9 (100 * f1 m))) ∧
    (∀ m ∈ metrics, (successState st e f1).summation m = st.summation m + f1 m) ∧
    metrics = ["Tokens", "Sentences", "Words", "UPOS", "XPOS", "UFeats", "AllTags",
      "Lemmas", "UAS", "LAS", "CLAS", "MLAS", "BLEX"] := by
  refine ⟨pe_success st e gold system f1 hne heq, rfl, ?_, rfl⟩
  intro m hm
  exact updateSummation_mem st.summation f1 hm

/-- Witness for `claim_C7`: a perfectly matching candidate with all
F1 values `1/2`. -/
theorem claim_C7_witness :
    processEntry initState
        ⟨entry0, .ok { characters := "abc" }, .ok { characters := "abc" }, .ok fun _ => 1/2⟩
      = some (successState initState entry0 fun _ => 1/2) ∧
    (successState initState entry0 fun _ => 1/2).results
      = initState.results ++ (ltcode entry0 ++ "-Status", okMsg fun _ => 1/2)
          :: metrics.map (fun m =>
              (ltcode entry0 ++ "-" ++ m ++ "-F1", formatFixed 9 (100 * (1/2 : ℚ)))) ∧
    (∀ m ∈ metrics, (successState initState entry0 fun _ => 1/2).summation m
      = initState.summation m + 1/2) ∧
    metrics = ["Tokens", "Sentences", "Words", "UPOS", "XPOS", "UFeats", "AllTags",
      "Lemmas", "UAS", "LAS", "CLAS", "MLAS", "BLEX"] :=
  claim_C7 initState entry0 { characters := "abc" } { characters := "abc" }
    (fun _ => 1/2) (by decide) rfl

/-! ### Claim C1: aggregate averages divide by N -/

/-- Claim C1: for a run over `N ≥ 1` entries that completes, every aggregate
`total-<metric>-F1` record holds the sum of the successfully scored F1
values for that metric divided by `N` — the total number of entries, not
the number of successes — and when every entry fails before scoring
(`K = N`) each of the thirteen aggregates is `0.000000000`, with no
division-by-zero fault. -/
theorem claim_C1 (runs : List EntryRun) (st : LoopState)
    (h : runLoop runs initState = some st) (hN : 1 ≤ runs.length) :
    insertAverages st = some ((metrics.map fun m => ("total-" ++ m ++ "-F1",
        formatFixed 9 (100 * sumSuccess runs m / (runs.length : ℚ)))) ++ st.results) ∧
    ((∀ r ∈ runs, successF1 r = none) →
      ∀ m ∈ metrics, formatFixed 9 (100 * sumSuccess runs m / (runs.length : ℚ))
        = "0.000000000") := by
  obtain ⟨ht, _, hs⟩ := runLoop_char runs initState st h
  have ht' : st.treebanks = runs.length := by
    rw [ht]
    show 0 + runs.length = runs.length
    omega
  have hne : st.treebanks ≠ 0 := by omega
  constructor
  · rw [insertAverages_eq st hne]
    have hmap : (metrics.map fun m => ("total-" ++ m ++ "-F1",
          formatFixed 9 (100 * st.summation m / (st.treebanks : ℚ))))
        = metrics.map fun m => ("total-" ++ m ++ "-F1",
          formatFixed 9 (100 * sumSuccess runs m / (runs.length : ℚ))) := by
      apply List.map_congr_left
      intro m hm
      have hsm : st.summation m = sumSuccess runs m := by
        rw [hs m hm]
        show (0:ℚ) + sumSuccess runs m = sumSuccess runs m
        ring
      rw [hsm, ht']
    rw [hmap]
  · intro hall m _
    have hsum : sumSuccess runs m = 0 := by
      apply List.sum_eq_zero
      intro x hx
      obtain ⟨r, hrr, hEq⟩ := List.mem_map.mp hx
      rw [← hEq, successAdd, hall r hrr]
    rw [hsum, mul_zero, zero_div]
    exact formatFixed_zero

/-- Witness for `claim_C1`: a single entry whose gold file fails to load. -/
theorem claim_C1_witness :
    runLoop [failRun] initState = some (statusState initState entry0 goldFailMsg) ∧
    1 ≤ [failRun].length ∧
    (insertAverages (statusState initState entry0 goldFailMsg)
        = some ((metrics.map fun m => ("total-" ++ m ++ "-F1",
            formatFixed 9 (100 * sumSuccess [failRun] m / (([failRun].length : ℕ) : ℚ))))
          ++ (statusState initState entry0 goldFailMsg).results) ∧
      ((∀ r ∈ [failRun], successF1 r = none) →
        ∀ m ∈ metrics, formatFixed 9 (100 * sumSuccess [failRun] m / (([failRun].length : ℕ) : ℚ))
          = "0.000000000")) :=
  ⟨rfl, by decide,
    claim_C1 [failRun] (statusState initState entry0 goldFailMsg) rfl (by decide)⟩

/-! ### Claim C4: shape and order of the final result list -/

/-- Claim C4: for every completing run, the final result list is the
thirteen aggregate `total-<metric>-F1` records, in the metrics' declared
order, followed by the per-entry records in processing order; the records
whose key ends in `-Status` are exactly one per metadata entry, in the same
relative order the entries were processed, so their count equals the number
of entries; and each entry contributes exactly one Status record. -/
theorem claim_C4 (runs : List EntryRun) (st : LoopState) (res : List (String × String))
    (h : runLoop runs initState = some st) (ha : insertAverages st = some res) :
    res = (metrics.map fun m => ("total-" ++ m ++ "-F1",
        formatFixed 9 (100 * st.summation m / (st.treebanks : ℚ))))
      ++ runs.flatMap entryRecords ∧
    (res.filter fun kv => strEndsWith kv.1 "-Status")
      = runs.map (fun r => (ltcode r.entry ++ "-Status", statusMsg r)) ∧
    (res.filter fun kv => strEndsWith kv.1 "-Status").length = runs.length ∧
    (∀ r : EntryRun, (entryRecords r).filter (fun kv => strEndsWith kv.1 "-Status")
      = [(ltcode r.entry ++ "-Status", statusMsg r)]) := by
  obtain ⟨_, hr, _⟩ := runLoop_char runs initState st h
  have hne : st.treebanks ≠ 0 := by
    intro h0
    rw [insertAverages, if_pos h0] at ha
    cases ha
  have hres : res = (metrics.map fun m => ("total-" ++ m ++ "-F1",
      formatFixed 9 (100 * st.summation m / (st.treebanks : ℚ))))
        ++ runs.flatMap entryRecords := by
    have hins := insertAverages_eq st hne
    rw [ha] at hins
    have := Option.some.inj hins
    rw [this, hr]
    rfl
  have hfil : (res.filter fun kv => strEndsWith kv.1 "-Status")
      = runs.map (fun r => (ltcode r.entry ++ "-Status", statusMsg r)) := by
    rw [hres, List.filter_append, filter_status_totals, filter_status_flatMap,
      List.nil_append]
  refine ⟨hres, hfil, ?_, filter_status_entryRecords⟩
  rw [hfil, List.length_map]

/-- Witness for `claim_C4`: the single-gold-failure run. -/
theorem claim_C4_witness :
    runLoop [failRun] initState = some (statusState initState entry0 goldFailMsg) ∧
    insertAverages (statusState initState entry0 goldFailMsg)
      = some ((metrics.map fun m => ("total-" ++ m ++ "-F1",
          formatFixed 9 (100
            * (statusState initState entry0 goldFailMsg).summation m
            / ((statusState initState entry0 goldFailMsg).treebanks : ℚ))))
        ++ [failRun].flatMap entryRecords) ∧
    ((((metrics.map fun m => ("total-" ++ m ++ "-F1",
          formatFixed 9 (100
            * (statusState initState entry0 goldFailMsg).summation m
            / ((statusState initState entry0 goldFailMsg).treebanks : ℚ))))
        ++ [failRun].flatMap entryRecords).filter
          fun kv => strEndsWith kv.1 "-Status")
      = [failRun].map (fun r => (ltcode r.entry ++ "-Status", statusMsg r))) := by
  have h1 : runLoop [failRun] initState = some (statusState initState entry0 goldFailMsg) := rfl
  have h2 := claim_C4 [failRun] (statusState initState entry0 goldFailMsg)
    ((metrics.map fun m => ("total-" ++ m ++ "-F1",
        formatFixed 9 (100
          * (statusState initState entry0 goldFailMsg).summation m
          / ((statusState initState entry0 goldFailMsg).treebanks : ℚ))))
      ++ [failRun].flatMap entryRecords) h1
    (insertAverages_eq (statusState initState entry0 goldFailMsg) (by decide))
  exact ⟨h1, insertAverages_eq (statusState initState entry0 goldFailMsg) (by decide),
    by rw [← h2.1] at h2 ⊢; exact h2.2.1⟩

/-! ### Claim C10: the headline side tables are keyed by code -/

/-- Claim C10: the per-sub-corpus side tables of headline scores
(`results_las`/`results_mlas`/`results_blex`) are keyed by the composite
language-treebank code, so when two metadata entries produce the same code
and both succeed, the later entry's values overwrite the earlier's and both
of that code's stdout summary lines render the later entry's percentages,
while each line keeps its own Status message; and a code with no successful
entry renders all three percentages as 0. -/
theorem claim_C10 (e1 e2 : Entry) (c1 c2 : UDRepresentation) (f g : String → ℚ)
    (hc : ltcode e1 = ltcode e2)
    (h1 : c1.characters ≠ "") (h2 : c2.characters ≠ "") :
    (∀ st res,
      runLoop [⟨e1, .ok c1, .ok c1, .ok f⟩, ⟨e2, .ok c2, .ok c2, .ok g⟩] initState
        = some st →
      insertAverages st = some res →
      (st.results_las (ltcode e1) = some (g "LAS") ∧
       st.results_mlas (ltcode e1) = some (g "MLAS") ∧
       st.results_blex (ltcode e1) = some (g "BLEX")) ∧
      stdoutLines st res =
        [{ code := ltcode e1, las := 100 * g "LAS", mlas := 100 * g "MLAS",
           blex := 100 * g "BLEX", status := okMsg f },
         { code := ltcode e2, las := 100 * g "LAS", mlas := 100 * g "MLAS",
           blex := 100 * g "BLEX", status := okMsg g }]) ∧
    (∀ (e3 : Entry) st' res',
      runLoop [⟨e3, .failure, .failure, .failure⟩] initState = some st' →
      insertAverages st' = some res' →
      stdoutLines st' res' =
        [{ code := ltcode e3, las := 0, mlas := 0, blex := 0, status := goldFailMsg }]) := by
  constructor
  · intro st res hrun hins
    have hpe1 : processEntry initState ⟨e1, .ok c1, .ok c1, .ok f⟩
        = some (successState initState e1 f) := pe_success initState e1 c1 c1 f h1 rfl
    have hpe2 : processEntry (successState initState e1 f) ⟨e2, .ok c2, .ok c2, .ok g⟩
        = some (successState (successState initState e1 f) e2 g) :=
      pe_success (successState initState e1 f) e2 c2 c2 g h2 rfl
    simp only [runLoop, hpe1, hpe2, Option.some.injEq] at hrun
    subst hrun
    have hlas : (successState (successState initState e1 f) e2 g).results_las (ltcode e1)
        = some (g "LAS") := by
      show (if ltcode e1 = ltcode e2 then some (g "LAS") else _) = some (g "LAS")
      rw [if_pos hc]
    have hmlas : (successState (successState initState e1 f) e2 g).results_mlas (ltcode e1)
        = some (g "MLAS") := by
      show (if ltcode e1 = ltcode e2 then some (g "MLAS") else _) = some (g "MLAS")
      rw [if_pos hc]
    have hblex : (successState (successState initState e1 f) e2 g).results_blex (ltcode e1)
        = some (g "BLEX") := by
      show (if ltcode e1 = ltcode e2 then some (g "BLEX") else _) = some (g "BLEX")
      rw [if_pos hc]
    have hlas2 : (successState (successState initState e1 f) e2 g).results_las (ltcode e2)
        = some (g "LAS") := by
      show (if ltcode e2 = ltcode e2 then some (g "LAS") else _) = some (g "LAS")
      rw [if_pos rfl]
    have hmlas2 : (successState (successState initState e1 f) e2 g).results_mlas (ltcode e2)
        = some (g "MLAS") := by
      show (if ltcode e2 = ltcode e2 then some (g "MLAS") else _) = some (g "MLAS")
      rw [if_pos rfl]
    have hblex2 : (successState (successState initState e1 f) e2 g).results_blex (ltcode e2)
        = some (g "BLEX") := by
      show (if ltcode e2 = ltcode e2 then some (g "BLEX") else _) = some (g "BLEX")
      rw [if_pos rfl]
    have htb : (successState (successState initState e1 f) e2 g).treebanks ≠ 0 :=
      Nat.succ_ne_zero _
    rw [insertAverages_eq _ htb] at hins
    have hres := (Option.some.inj hins).symm
    subst hres
    refine ⟨⟨hlas, hmlas, hblex⟩, ?_⟩
    have hr2 : (successState (successState initState e1 f) e2 g).results
        = [(ltcode e1 ++ "-Status", okMsg f)]
          ++ ((metrics.map fun m => (ltcode e1 ++ "-" ++ m ++ "-F1",
                formatFixed 9 (100 * f m)))
          ++ ([(ltcode e2 ++ "-Status", okMsg g)]
          ++ (metrics.map fun m => (ltcode e2 ++ "-" ++ m ++ "-F1",
                formatFixed 9 (100 * g m))))) := by
      show ([] ++ (ltcode e1 ++ "-Status", okMsg f) :: _)
          ++ (ltcode e2 ++ "-Status", okMsg g) :: _ = _
      simp
    rw [stdoutLines_append, stdoutLines_totals, hr2, stdoutLines_append,
      stdoutLines_append, stdoutLines_append, stdoutLines_status,
      stdoutLines_status, stdoutLines_metricRecords, stdoutLines_metricRecords,
      hlas, hmlas, hblex, hlas2, hmlas2, hblex2]
    simp
  · intro e3 st' res' hrun' hins'
    have hpe3 : processEntry initState ⟨e3, .failure, .failure, .failure⟩
        = some (statusState initState e3 goldFailMsg) := rfl
    simp only [runLoop, hpe3, Option.some.injEq] at hrun'
    subst hrun'
    have htb' : (statusState initState e3 goldFailMsg).treebanks ≠ 0 :=
      Nat.succ_ne_zero _
    rw [insertAverages_eq _ htb'] at hins'
    have hres' := (Option.some.inj hins').symm
    subst hres'
    have hr3 : (statusState initState e3 goldFailMsg).results
        = [(ltcode e3 ++ "-Status", goldFailMsg)] := rfl
    rw [stdoutLines_append, stdoutLines_totals, hr3, stdoutLines_status]
    have hn1 : (statusState initState e3 goldFailMsg).results_las (ltcode e3) = none := rfl
    have hn2 : (statusState initState e3 goldFailMsg).results_mlas (ltcode e3) = none := rfl
    have hn3 : (statusState initState e3 goldFailMsg).results_blex (ltcode e3) = none := rfl
    rw [hn1, hn2, hn3]
    simp

/-- The final state of the duplicate-code run used to witness `claim_C10`:
two entries with the same code, the first scoring `1/4` everywhere, the
second `3/4` everywhere. -/
def st10 : LoopState :=
  successState (successState initState entry0 fun _ => 1/4) entry0 fun _ => 3/4

/-- The final result list of the `st10` run. -/
def res10 : List (String × String) :=
  (metrics.map fun m => ("total-" ++ m ++ "-F1",
    formatFixed 9 (100 * st10.summation m / (st10.treebanks : ℚ)))) ++ st10.results

/-- Witness for `claim_C10`: both summary lines of the duplicated code show
the second entry's percentages while keeping their own status messages. -/
theorem claim_C10_witness :
    stdoutLines st10 res10 =
      [{ code := ltcode entry0, las := 100 * (3/4 : ℚ), mlas := 100 * (3/4 : ℚ),
         blex := 100 * (3/4 : ℚ), status := okMsg fun _ => (1/4 : ℚ) },
       { code := ltcode entry0, las := 100 * (3/4 : ℚ), mlas := 100 * (3/4 : ℚ),
         blex := 100 * (3/4 : ℚ), status := okMsg fun _ => (3/4 : ℚ) }] := by
  have h := (claim_C10 entry0 entry0 { characters := "abc" } { characters := "abc" }
      (fun _ => 1/4) (fun _ => 3/4) rfl (by decide) (by decide)).1 st10 res10
    rfl (insertAverages_eq st10 (Nat.succ_ne_zero _))
  exact h.2
